import Mathlib

/-!
Verification development for the AI-Call-Bot repository.

The repository contains three near-identical realizations of its speech
segmentation pipeline:
  * the monolithic application (src/app copy.py, function listen_and_transcribe),
  * the SIP variant (src/sip_llm_bot.py, function listen_and_transcribe),
  * the modular application (src/audio_processor.py, class AudioProcessor).

This file gives a shallow embedding of the segmentation loops, the mute
coordination, the timeout-driven turn controller of the monolithic main loop,
and the reply-generation calls, and proves or refutes the frozen claims about
them.  Machine integers of the source are modelled as Nat (amplitudes are
nonnegative int16 magnitudes, frame counts and timestamps are nonnegative);
fallible external calls are modelled by explicit outcome data passed in as
input; side effects on the database and the speakers are modelled as emitted
effect lists.
-/

/-- One captured audio frame, as far as the segmentation logic inspects it:
its peak absolute int16 amplitude (np.abs(pcm).max()) and the boolean answer
the webrtcvad classifier would give on its bytes (vad.is_speech(data, rate)).
The raw samples themselves are never branched on elsewhere, so they are not
carried. -/
structure Frame where
  maxAmp : Nat
  vadSpeech : Bool
deriving DecidableEq, Repr

/-- Configuration constants of the listen_and_transcribe segmentation loop
(app copy.py and sip_llm_bot.py use module-level constants with these roles). -/
structure SegConfig where
  amplitudeThreshold : Nat
  minUtteranceFrames : Nat
  silenceThresholdFrames : Nat
  extraFrames : Nat
deriving DecidableEq, Repr

/-- The constants of app copy.py: AMPLITUDE_THRESHOLD = 500,
MIN_UTTERANCE_FRAMES = 30, SILENCE_THRESHOLD_FRAMES = 40, EXTRA_FRAMES = 7. -/
def appCopyConfig : SegConfig :=
  { amplitudeThreshold := 500
    minUtteranceFrames := 30
    silenceThresholdFrames := 40
    extraFrames := 7 }

/-- The amplitude/activity gate of listen_and_transcribe: a frame whose peak
amplitude is below AMPLITUDE_THRESHOLD is silence without consulting the
classifier; otherwise the classifier verdict decides. -/
def classifyFrame (threshold : Nat) (f : Frame) : Bool :=
  if f.maxAmp < threshold then false else f.vadSpeech

/-- The mutable segmentation variables of listen_and_transcribe:
triggered, num_silent, num_buffered and buffer_frames. -/
structure SegState where
  triggered : Bool
  numSilent : Nat
  numBuffered : Nat
  buffer : List Frame
deriving DecidableEq, Repr

/-- The values the loop initializes its variables to:
buffer_frames = [], triggered = False, num_silent = 0, num_buffered = 0. -/
def initSegState : SegState :=
  { triggered := false, numSilent := 0, numBuffered := 0, buffer := [] }

/-- Processing of one successfully read, complete frame by the body of the
while loop of listen_and_transcribe (app copy.py lines 462-499, identically
sip_llm_bot.py lines 229-261).  Returns the updated variables and whether the
end-of-utterance break was taken this iteration. -/
def segStep (cfg : SegConfig) (s : SegState) (f : Frame) : SegState × Bool :=
  let isSpeech := classifyFrame cfg.amplitudeThreshold f
  if s.triggered then
    let buf := s.buffer ++ [f]
    let nb := s.numBuffered + 1
    if isSpeech then
      ({ triggered := true, numSilent := 0, numBuffered := nb, buffer := buf }, false)
    else
      let ns := s.numSilent + 1
      if cfg.minUtteranceFrames ≤ nb ∧ cfg.silenceThresholdFrames < ns then
        ({ triggered := true, numSilent := ns, numBuffered := nb, buffer := buf }, true)
      else
        ({ triggered := true, numSilent := ns, numBuffered := nb, buffer := buf }, false)
  else
    if isSpeech then
      ({ triggered := true, numSilent := 0, numBuffered := 1, buffer := [f] }, false)
    else
      (s, false)

/-- One observation of the capture loop: either the iteration found the
tts_playing event set (and read nothing), or it read the frame f from the
input stream. -/
inductive LoopInput where
  | muted
  | frame (f : Frame)
deriving DecidableEq, Repr

/-- The frames carried by a list of loop observations, in order; these are the
frames still unread on the stream, which the post-break extra-frame grab reads
directly (it does not re-check the mute flag). -/
def framesOf : List LoopInput → List Frame
  | [] => []
  | LoopInput.muted :: rest => framesOf rest
  | LoopInput.frame f :: rest => f :: framesOf rest

/-- The capture loop of listen_and_transcribe on a finite observation list:
a muted iteration sleeps and continues without reading; a read frame goes
through segStep; when the end-of-utterance break fires, the loop reads up to
EXTRA_FRAMES further frames from the stream and the function returns the
accumulated buffer as the finished clip.  none means the input was exhausted
with no utterance finished (the real loop would still be waiting). -/
def runLoop (cfg : SegConfig) (s : SegState) : List LoopInput → Option (List Frame)
  | [] => none
  | LoopInput.muted :: rest => runLoop cfg s rest
  | LoopInput.frame f :: rest =>
    if (segStep cfg s f).2 then
      some ((segStep cfg s f).1.buffer ++ (framesOf rest).take cfg.extraFrames)
    else
      runLoop cfg (segStep cfg s f).1 rest

/-- The segmentation variables after a sequence of read frames, with no
end-of-utterance break taken into account (used to observe intermediate
states). -/
def segFold (cfg : SegConfig) (s : SegState) (fs : List Frame) : SegState :=
  fs.foldl (fun st f => (segStep cfg st f).1) s

/-- Configuration constants shared by the modular application, from
src/config.py (imported by audio_processor.py). -/
structure APConfig where
  amplitudeThreshold : Nat
  minUtteranceFrames : Nat
  silenceThresholdFrames : Nat
  extraFrames : Nat
  frameDurationMs : Nat
deriving DecidableEq, Repr

/-- config.py: AMPLITUDE_THRESHOLD = 100, MIN_UTTERANCE_FRAMES = 3,
SILENCE_THRESHOLD_FRAMES = 5, EXTRA_FRAMES = 2, FRAME_DURATION_MS = 30. -/
def apConfig : APConfig :=
  { amplitudeThreshold := 100
    minUtteranceFrames := 3
    silenceThresholdFrames := 5
    extraFrames := 2
    frameDurationMs := 30 }

/-- The mutable capture variables of AudioProcessor.listen_and_transcribe:
the frames list (which accumulates speech frames only) and the silent_frames
counter. -/
structure APState where
  frames : List Frame
  silentFrames : Nat
deriving DecidableEq, Repr

/-- Initial values: frames = [], silent_frames = 0. -/
def initAPState : APState :=
  { frames := [], silentFrames := 0 }

/-- What one invocation of the audio_callback did with its frame:
nothing observable, a clip handed to _process_audio_frames (which runs the
transcription callback), or a buffered utterance silently dropped by the
too-short check. -/
inductive APResult where
  | nothing
  | emitted (clip : List Frame)
  | discarded
deriving DecidableEq, Repr

/-- One invocation of audio_callback in AudioProcessor.listen_and_transcribe
(src/audio_processor.py lines 60-116), on one captured frame.  Frames below
the amplitude threshold return early after bumping silent_frames; speech
frames are appended and reset the counter; on a non-speech frame above the
threshold, when len(frames) is at least MIN_UTTERANCE_FRAMES and either
silent_frames has reached SILENCE_THRESHOLD_FRAMES or len(frames) is at least
20, the utterance ends: if its duration len(frames) * FRAME_DURATION_MS is at
least 100 ms the buffer is extended with copies of its own last
min(EXTRA_FRAMES, len(frames)) entries and processed, otherwise it is
discarded; either way frames and silent_frames are cleared.  Note: this
callback never consults the tts_playing event of its class, so its behavior
does not depend on whether TTS playback is in progress. -/
def apStep (cfg : APConfig) (s : APState) (f : Frame) : APState × APResult :=
  if f.maxAmp < cfg.amplitudeThreshold then
    ({ frames := s.frames, silentFrames := s.silentFrames + 1 }, APResult.nothing)
  else if f.vadSpeech then
    ({ frames := s.frames ++ [f], silentFrames := 0 }, APResult.nothing)
  else
    let ns := s.silentFrames + 1
    if cfg.minUtteranceFrames ≤ s.frames.length ∧
        (cfg.silenceThresholdFrames ≤ ns ∨ 20 ≤ s.frames.length) then
      if 100 ≤ s.frames.length * cfg.frameDurationMs then
        let extra := min cfg.extraFrames s.frames.length
        let clip :=
          if 0 < extra then s.frames ++ s.frames.drop (s.frames.length - extra)
          else s.frames
        ({ frames := [], silentFrames := 0 }, APResult.emitted clip)
      else
        ({ frames := [], silentFrames := 0 }, APResult.discarded)
    else
      ({ frames := s.frames, silentFrames := ns }, APResult.nothing)

/-- Running the AudioProcessor callback over a list of captured frames,
collecting the per-frame outcomes. -/
def apRun (cfg : APConfig) (s : APState) : List Frame → APState × List APResult
  | [] => (s, [])
  | f :: rest =>
    let step := apStep cfg s f
    let tail := apRun cfg step.1 rest
    (tail.1, step.2 :: tail.2)

/-- Result of running a block of Python code over a state: the state at
normal completion, or the state at the point where an exception was raised
(the exception value itself is never inspected by the code modelled here,
every handler is a bare except that only logs). -/
inductive PyResult (σ : Type) where
  | ok (s : σ)
  | raised (s : σ)
deriving DecidableEq, Repr

/-- Python try/except Exception/finally over explicit state: the handler runs
only when the body raised, the finalizer runs on both paths, and the caught
exception does not propagate. -/
def tryExceptFinally {σ : Type} (body : σ → PyResult σ)
    (handler : σ → σ) (fin : σ → σ) (s : σ) : σ :=
  match body s with
  | PyResult.ok s2 => fin s2
  | PyResult.raised s2 => fin (handler s2)

/-- Which of the fallible external steps of a playback call raise on this
invocation: Edge-TTS synthesis (asyncio.run of _edge_tts_generate, or
tts_client.speak_text which re-raises synthesis failures), and audio playback
(playsound, or the pygame playback sequence). -/
structure SpeakEnv where
  ttsGenRaises : Bool
  playbackRaises : Bool
deriving DecidableEq, Repr

/-- The module-level mutable globals of app copy.py that the conversation
loop reads and writes: tts_playing (a threading.Event, read as a Bool),
last_activity_timestamp, conversation_active, confirmation_pending,
confirmation_time and current_conversation_id.  Timestamps are wall-clock
seconds as Nat. -/
structure BotState where
  ttsPlaying : Bool
  lastActivity : Option Nat
  conversationActive : Bool
  confirmationPending : Bool
  confirmationTime : Option Nat
  currentConversationId : Option Nat
deriving DecidableEq, Repr

/-- The values the globals are initialized to at module load. -/
def initBotState : BotState :=
  { ttsPlaying := false, lastActivity := none, conversationActive := false,
    confirmationPending := false, confirmationTime := none,
    currentConversationId := none }

/-- speak_text from app copy.py (lines 565-600): sets tts_playing, then in a
try block runs Edge-TTS synthesis and playsound playback; the except block
only logs; the finally block deletes the temp file, clears tts_playing and
then assigns last_activity_timestamp = now, so the idle clock restarts only
once the audio has finished (or the attempt has failed).  now is the
wall-clock time at which the finally block runs. -/
def speak_text (env : SpeakEnv) (now : Nat) (s : BotState) : BotState :=
  let s1 := { s with ttsPlaying := true }
  tryExceptFinally
    (fun st =>
      if env.ttsGenRaises then PyResult.raised st
      else if env.playbackRaises then PyResult.raised st
      else PyResult.ok st)
    (fun st => st)
    (fun st => { st with ttsPlaying := false, lastActivity := some now })
    s1

/-- The state touched by ConversationManager._speak_response: the
audio_processor.tts_playing event, driven through set_tts_playing. -/
structure CMState where
  ttsPlaying : Bool
deriving DecidableEq, Repr

/-- _speak_response from conversation_manager.py (lines 142-175): inside the
try block it sets the tts_playing flag, calls tts_client.speak_text (which
re-raises synthesis failures) and plays the file with pygame; the except
block only logs; the finally block clears the flag. -/
def speak_response (env : SpeakEnv) (s : CMState) : CMState :=
  tryExceptFinally
    (fun st =>
      let st1 : CMState := { st with ttsPlaying := true }
      if env.ttsGenRaises then PyResult.raised st1
      else if env.playbackRaises then PyResult.raised st1
      else PyResult.ok st1)
    (fun st => st)
    (fun st => { st with ttsPlaying := false })
    s

/-- The shape of the parsed JSON body of an Ollama chat response, as far as
the two query_ollama implementations inspect it: either the expected message
content is present (data.choices[0].message.content for app copy.py,
data.message.content for llm_client.py), or the document lacks those fields. -/
inductive OllamaJson where
  | withContent (content : String)
  | malformed
deriving DecidableEq, Repr

/-- The outcome of the requests.post call to the Ollama endpoint:
the request itself raised (connection failure or timeout), or a response
arrived with a status code and a body that either is or is not valid JSON. -/
inductive HttpOutcome where
  | requestRaised
  | response (status : Nat) (body : Option OllamaJson)
deriving DecidableEq, Repr

/-- Side effects on the database and the speakers emitted by the
conversation loop, in order.  insertMessage carries the conversation id the
row is attached to (None becomes a NULL column), summarize stands for
generate_and_store_summary, speak for an audio playback of the text. -/
inductive Effect where
  | insertMessage (conversationId : Option Nat) (sender : String) (text : String)
  | summarize (conversationId : Nat)
  | speak (text : String)
deriving DecidableEq, Repr

/-- Python str.strip() with no argument, as applied to the reply content:
removes whitespace characters from both ends of the string. -/
def pyStrip (s : String) : String :=
  String.mk
    (((s.data.dropWhile Char.isWhitespace).reverse.dropWhile
        Char.isWhitespace).reverse)

/-- query_ollama from app copy.py (lines 539-556): posts the chat payload,
raise_for_status raises for any status of 400 or above, the JSON body is
parsed and choices[0].message.content stripped; any exception anywhere in the
try block is caught and the fixed apology is substituted.  Afterwards, when
the reply is nonempty, the conversation is active and a conversation id is
set, the reply is inserted as an assistant message.  The function returns the
reply together with the (unchanged) globals and the database effects; in
particular it is total, no exception escapes to the caller. -/
def query_ollama (res : HttpOutcome) (s : BotState) :
    String × BotState × List Effect :=
  let reply :=
    match res with
    | HttpOutcome.requestRaised => "Sorry, I encountered an error."
    | HttpOutcome.response status body =>
      if 400 ≤ status then "Sorry, I encountered an error."
      else
        match body with
        | none => "Sorry, I encountered an error."
        | some OllamaJson.malformed => "Sorry, I encountered an error."
        | some (OllamaJson.withContent c) => pyStrip c
  let effects :=
    match s.currentConversationId with
    | some cid =>
      if reply ≠ "" ∧ s.conversationActive = true then
        [Effect.insertMessage (some cid) "assistant" reply]
      else []
    | none => []
  (reply, s, effects)

/-- query_ollama from llm_client.py (lines 51-81), used by the modular
application: the same request shape against the /api/chat endpoint, but with
a distinct fixed apology per failure class (RequestException including the
raise_for_status HTTPError, JSONDecodeError, and a missing
message.content field), and message.content stripped on success. -/
def query_ollama_client (res : HttpOutcome) : String :=
  match res with
  | HttpOutcome.requestRaised =>
    "I'm sorry, I'm having trouble connecting to my language model right now."
  | HttpOutcome.response status body =>
    if 400 ≤ status then
      "I'm sorry, I'm having trouble connecting to my language model right now."
    else
      match body with
      | none => "I'm sorry, I received an invalid response from my language model."
      | some OllamaJson.malformed => "I'm sorry, I couldn't process that request."
      | some (OllamaJson.withContent c) => pyStrip c

/-- An engine failure in the sense of the reply-engine contract: the request
raised, the status was an error, the body was not JSON, or the expected
content field was absent.  The complement is a well-formed success carrying
the engine's content string. -/
def engineFailure : HttpOutcome → Bool
  | HttpOutcome.requestRaised => true
  | HttpOutcome.response status body =>
    if 400 ≤ status then true
    else
      match body with
      | none => true
      | some OllamaJson.malformed => true
      | some (OllamaJson.withContent _) => false

/-- What one call to listen_and_transcribe handed back to main_loop:
the hang-up flag string, the confirm-timeout flag string, or a transcript
(possibly empty when no speech was captured). -/
inductive ListenResult where
  | hangupFlag
  | confirmTimeoutFlag
  | transcript (text : String)
deriving DecidableEq, Repr

/-- The two timeout constants read by the checks at the top of each capture
iteration. -/
structure TimeoutConfig where
  hangupTimeoutSeconds : Nat
  confirmTimeoutSeconds : Nat
deriving DecidableEq, Repr

/-- app copy.py: HANGUP_TIMEOUT_SECONDS = 60, CONFIRM_TIMEOUT_SECONDS = 15. -/
def appCopyTimeouts : TimeoutConfig :=
  { hangupTimeoutSeconds := 60, confirmTimeoutSeconds := 15 }

/-- Check A at the top of each iteration of listen_and_transcribe
(app copy.py lines 420-425): a pending confirmation whose issue time lies
strictly more than CONFIRM_TIMEOUT_SECONDS in the past. -/
def confirmCheck (cfg : TimeoutConfig) (now : Nat) (s : BotState) : Bool :=
  s.confirmationPending &&
    (match s.confirmationTime with
     | some t => decide (cfg.confirmTimeoutSeconds < now - t)
     | none => false)

/-- Check B (app copy.py lines 428-432): an active, non-confirming
conversation idle strictly more than HANGUP_TIMEOUT_SECONDS. -/
def hangupCheck (cfg : TimeoutConfig) (now : Nat) (s : BotState) : Bool :=
  (s.conversationActive && !s.confirmationPending) &&
    (match s.lastActivity with
     | some t => decide (cfg.hangupTimeoutSeconds < now - t)
     | none => false)

/-- The early returns of listen_and_transcribe: check A returns the
confirm-timeout flag, otherwise check B returns the hang-up flag, otherwise
the iteration goes on to capture audio. -/
def timeoutCheck (cfg : TimeoutConfig) (now : Nat) (s : BotState) :
    Option ListenResult :=
  if confirmCheck cfg now s then some ListenResult.confirmTimeoutFlag
  else if hangupCheck cfg now s then some ListenResult.hangupFlag
  else none

/-- start_new_conversation from app copy.py (lines 195-215): inserts a
conversations row (whose fresh rowid is an input here) and sets
current_conversation_id to it, conversation_active to True,
confirmation_pending to False and last_activity_timestamp to now. -/
def start_new_conversation (newId : Nat) (now : Nat) (s : BotState) : BotState :=
  { s with currentConversationId := some newId
           conversationActive := true
           confirmationPending := false
           lastActivity := some now }

/-- The external inputs one iteration of main_loop may consume: the failure
behavior of the playback calls, the outcome of the Ollama request, and the
rowid a fresh conversations row would get. -/
structure TurnEnv where
  speakEnv : SpeakEnv
  ollama : HttpOutcome
  newConversationId : Nat
deriving DecidableEq, Repr

/-- One iteration of the body of main_loop (app copy.py lines 617-687), given
what listen_and_transcribe returned.  On the hang-up flag with an active,
non-confirming conversation it speaks the confirmation prompt and enters the
confirmation-pending state; on the confirm-timeout flag with a pending
confirmation it summarizes the conversation (when one is set) and clears
conversation_active and confirmation_pending; on an empty transcript it does
nothing; on real speech it clears any pending confirmation, starts and greets
a new conversation when none is active or else inserts the user message, then
speaks the two feedback phrases, queries Ollama and speaks the reply.
All playback calls share env.speakEnv and the wall-clock instant now. -/
def mainLoopStep (env : TurnEnv) (now : Nat) (s : BotState) (r : ListenResult) :
    BotState × List Effect :=
  match r with
  | ListenResult.hangupFlag =>
    if s.conversationActive && !s.confirmationPending then
      let s1 := speak_text env.speakEnv now s
      ({ s1 with confirmationPending := true
                 confirmationTime := some now
                 lastActivity := some now },
        [Effect.insertMessage s.currentConversationId "assistant"
          "Are you still there?",
          Effect.speak "Are you still there?"])
    else (s, [])
  | ListenResult.confirmTimeoutFlag =>
    if s.confirmationPending then
      let effs :=
        match s.currentConversationId with
        | some cid => [Effect.summarize cid]
        | none => []
      ({ s with conversationActive := false, confirmationPending := false }, effs)
    else (s, [])
  | ListenResult.transcript t =>
    if t = "" then (s, [])
    else
      let s1 :=
        if s.confirmationPending then { s with confirmationPending := false } else s
      let opening :=
        if s1.conversationActive then
          (s1, [Effect.insertMessage s1.currentConversationId "user" t])
        else
          let sN := start_new_conversation env.newConversationId now s1
          (speak_text env.speakEnv now sN,
            [Effect.insertMessage sN.currentConversationId "user" t,
              Effect.insertMessage sN.currentConversationId "assistant" "Hello!",
              Effect.speak "Hello!"])
      let s2 := opening.1
      let s3 := speak_text env.speakEnv now s2
      let s4 := speak_text env.speakEnv now s3
      let q := query_ollama env.ollama s4
      let s5 := speak_text env.speakEnv now q.2.1
      (s5, opening.2 ++
        [Effect.insertMessage s2.currentConversationId "assistant" "I heard you.",
          Effect.speak "I heard you.",
          Effect.insertMessage s3.currentConversationId "assistant" "Let me think...",
          Effect.speak "Let me think..."] ++
        q.2.2 ++ [Effect.speak q.1])

theorem segStep_silent_waiting (cfg : SegConfig) (s : SegState) (f : Frame)
    (htrig : s.triggered = false)
    (hsil : classifyFrame cfg.amplitudeThreshold f = false) :
    segStep cfg s f = (s, false) := by
  simp [segStep, htrig, hsil]

theorem segFold_silent (cfg : SegConfig) (fs : List Frame)
    (hsil : ∀ f ∈ fs, classifyFrame cfg.amplitudeThreshold f = false) :
    segFold cfg initSegState fs = initSegState := by
  induction fs with
  | nil => rfl
  | cons f rest ih =>
    have hf : classifyFrame cfg.amplitudeThreshold f = false := hsil f (by simp)
    have hstep : segStep cfg initSegState f = (initSegState, false) :=
      segStep_silent_waiting cfg initSegState f rfl hf
    have hrest : ∀ g ∈ rest, classifyFrame cfg.amplitudeThreshold g = false :=
      fun g hg => hsil g (by simp [hg])
    simp [segFold] at ih ⊢
    rw [hstep]
    exact ih hrest

theorem runLoop_silent (cfg : SegConfig) (fs : List Frame)
    (hsil : ∀ f ∈ fs, classifyFrame cfg.amplitudeThreshold f = false) :
    runLoop cfg initSegState (fs.map LoopInput.frame) = none := by
  induction fs with
  | nil => rfl
  | cons f rest ih =>
    have hf : classifyFrame cfg.amplitudeThreshold f = false := hsil f (by simp)
    have hstep : segStep cfg initSegState f = (initSegState, false) :=
      segStep_silent_waiting cfg initSegState f rfl hf
    have hrest : ∀ g ∈ rest, classifyFrame cfg.amplitudeThreshold g = false :=
      fun g hg => hsil g (by simp [hg])
    simp [runLoop, hstep]
    exact ih hrest

/-- Claim C5: for every sequence of frames all classified silence, the
segmenter never leaves the waiting state (triggered stays false, and in fact
the whole variable state stays at its initial value, so no frame is ever
appended to the utterance buffer), and the loop never emits a clip. -/
theorem c5_silence_only_never_triggers (cfg : SegConfig) (fs : List Frame)
    (hsil : ∀ f ∈ fs, classifyFrame cfg.amplitudeThreshold f = false) :
    (∀ n : Nat, segFold cfg initSegState (fs.take n) = initSegState) ∧
    runLoop cfg initSegState (fs.map LoopInput.frame) = none := by
  constructor
  · intro n
    refine segFold_silent cfg (fs.take n) ?_
    intro f hf
    exact hsil f ((fs.take_sublist n).mem hf)
  · exact runLoop_silent cfg fs hsil

/-- Witness for C5: two concrete low-amplitude frames under the app copy.py
configuration. -/
theorem c5_silence_only_never_triggers_witness :
    (∀ n : Nat,
      segFold appCopyConfig initSegState
        ([Frame.mk 0 false, Frame.mk 80 true].take n) = initSegState) ∧
    runLoop appCopyConfig initSegState
      ([Frame.mk 0 false, Frame.mk 80 true].map LoopInput.frame) = none :=
  c5_silence_only_never_triggers appCopyConfig
    [Frame.mk 0 false, Frame.mk 80 true] (by decide)

/-- Claim C1, amended to the listen_and_transcribe segmenter of app copy.py
and sip_llm_bot.py: while triggered (BUFFERING), a frame classified silence
is appended to the buffer and counted, and the end-of-utterance break is
taken if and only if the buffered frame count (including this frame) is at
least minUtteranceFrames and the consecutive-silence run (including this
frame) strictly exceeds silenceThresholdFrames; when the break is not taken
the segmenter remains triggered with the frame accumulated.  (As stated over
all variants the claim is false: the AudioProcessor variant ends at a silence
run merely reaching its threshold, see the counterexample.) -/
theorem c1_end_condition (cfg : SegConfig) (s : SegState) (f : Frame)
    (htrig : s.triggered = true)
    (hsil : classifyFrame cfg.amplitudeThreshold f = false) :
    ((segStep cfg s f).2 = true ↔
      (cfg.minUtteranceFrames ≤ s.numBuffered + 1 ∧
        cfg.silenceThresholdFrames < s.numSilent + 1)) ∧
    (segStep cfg s f).1.triggered = true ∧
    (segStep cfg s f).1.buffer = s.buffer ++ [f] ∧
    (segStep cfg s f).1.numBuffered = s.numBuffered + 1 ∧
    (segStep cfg s f).1.numSilent = s.numSilent + 1 := by
  by_cases hc : cfg.minUtteranceFrames ≤ s.numBuffered + 1 ∧
      cfg.silenceThresholdFrames < s.numSilent + 1
  · simp [segStep, htrig, hsil, hc]
  · simp [segStep, htrig, hsil, hc]

/-- Witness for C1: a concrete BUFFERING state under the app copy.py
configuration, one silent frame short on each count, then exactly over. -/
theorem c1_end_condition_witness :
    ((segStep appCopyConfig
        { triggered := true, numSilent := 40, numBuffered := 29,
          buffer := List.replicate 29 (Frame.mk 900 true) }
        (Frame.mk 0 false)).2 = true ↔
      (appCopyConfig.minUtteranceFrames ≤ 29 + 1 ∧
        appCopyConfig.silenceThresholdFrames < 40 + 1)) ∧
    (segStep appCopyConfig
        { triggered := true, numSilent := 40, numBuffered := 29,
          buffer := List.replicate 29 (Frame.mk 900 true) }
        (Frame.mk 0 false)).1.triggered = true ∧
    (segStep appCopyConfig
        { triggered := true, numSilent := 40, numBuffered := 29,
          buffer := List.replicate 29 (Frame.mk 900 true) }
        (Frame.mk 0 false)).1.buffer =
      List.replicate 29 (Frame.mk 900 true) ++ [Frame.mk 0 false] ∧
    (segStep appCopyConfig
        { triggered := true, numSilent := 40, numBuffered := 29,
          buffer := List.replicate 29 (Frame.mk 900 true) }
        (Frame.mk 0 false)).1.numBuffered = 29 + 1 ∧
    (segStep appCopyConfig
        { triggered := true, numSilent := 40, numBuffered := 29,
          buffer := List.replicate 29 (Frame.mk 900 true) }
        (Frame.mk 0 false)).1.numSilent = 40 + 1 :=
  c1_end_condition appCopyConfig
    { triggered := true, numSilent := 40, numBuffered := 29,
      buffer := List.replicate 29 (Frame.mk 900 true) }
    (Frame.mk 0 false) rfl (by decide)

/-- Counterexample to claim C1 as stated: in the AudioProcessor variant, from
the reachable state with four buffered speech frames and four counted silent
frames, a fifth frame classified silence (amplitude 500 above the threshold
100, classifier verdict false) declares end-of-utterance and emits a clip,
although the consecutive-silence run is then 5, which equals
SILENCE_THRESHOLD_FRAMES = 5 and does not strictly exceed it. -/
theorem c1_counterexample :
    (apRun apConfig initAPState
        (List.replicate 4 (Frame.mk 500 true) ++
          List.replicate 4 (Frame.mk 500 false))).1 =
      { frames := List.replicate 4 (Frame.mk 500 true), silentFrames := 4 } ∧
    classifyFrame apConfig.amplitudeThreshold (Frame.mk 500 false) = false ∧
    (apStep apConfig
        { frames := List.replicate 4 (Frame.mk 500 true), silentFrames := 4 }
        (Frame.mk 500 false)).2 =
      APResult.emitted (List.replicate 6 (Frame.mk 500 true)) ∧
    4 + 1 = apConfig.silenceThresholdFrames ∧
    ¬ apConfig.silenceThresholdFrames < 4 + 1 := by
  decide

/-- Claim C2: fed five silence frames, four speech frames and six silence
frames under minUtteranceFrames = 3, silenceThresholdFrames = 5,
extraFrames = 2, with at least two further frames available on the stream,
the listen_and_transcribe loop emits exactly one clip consisting of the four
speech frames, the six trailing silence frames and the two following padding
frames: twelve frames in all. -/
theorem c2_scenario (amp : Nat)
    (s1 s2 s3 s4 s5 f1 f2 f3 f4 g1 g2 g3 g4 g5 g6 e1 e2 : Frame)
    (rest : List LoopInput)
    (hs1 : classifyFrame amp s1 = false) (hs2 : classifyFrame amp s2 = false)
    (hs3 : classifyFrame amp s3 = false) (hs4 : classifyFrame amp s4 = false)
    (hs5 : classifyFrame amp s5 = false)
    (hf1 : classifyFrame amp f1 = true) (hf2 : classifyFrame amp f2 = true)
    (hf3 : classifyFrame amp f3 = true) (hf4 : classifyFrame amp f4 = true)
    (hg1 : classifyFrame amp g1 = false) (hg2 : classifyFrame amp g2 = false)
    (hg3 : classifyFrame amp g3 = false) (hg4 : classifyFrame amp g4 = false)
    (hg5 : classifyFrame amp g5 = false) (hg6 : classifyFrame amp g6 = false) :
    runLoop (SegConfig.mk amp 3 5 2) initSegState
      ([s1, s2, s3, s4, s5, f1, f2, f3, f4,
        g1, g2, g3, g4, g5, g6, e1, e2].map LoopInput.frame ++ rest) =
      some [f1, f2, f3, f4, g1, g2, g3, g4, g5, g6, e1, e2] ∧
    [f1, f2, f3, f4, g1, g2, g3, g4, g5, g6, e1, e2].length = 12 := by
  refine ⟨?_, rfl⟩
  simp [runLoop, segStep, initSegState, framesOf,
    hs1, hs2, hs3, hs4, hs5, hf1, hf2, hf3, hf4,
    hg1, hg2, hg3, hg4, hg5, hg6]

/-- Witness for C2: concrete frames (silence at amplitude 0, speech at
amplitude 900) under amplitude threshold 500, with an empty continuation
beyond the two padding frames. -/
theorem c2_scenario_witness :
    runLoop (SegConfig.mk 500 3 5 2) initSegState
      ([Frame.mk 0 false, Frame.mk 0 false, Frame.mk 0 false, Frame.mk 0 false,
        Frame.mk 0 false, Frame.mk 900 true, Frame.mk 900 true, Frame.mk 900 true,
        Frame.mk 900 true, Frame.mk 10 false, Frame.mk 10 false, Frame.mk 10 false,
        Frame.mk 10 false, Frame.mk 10 false, Frame.mk 10 false, Frame.mk 20 false,
        Frame.mk 30 false].map LoopInput.frame ++ []) =
      some [Frame.mk 900 true, Frame.mk 900 true, Frame.mk 900 true,
        Frame.mk 900 true, Frame.mk 10 false, Frame.mk 10 false,
        Frame.mk 10 false, Frame.mk 10 false, Frame.mk 10 false,
        Frame.mk 10 false, Frame.mk 20 false, Frame.mk 30 false] ∧
    [Frame.mk 900 true, Frame.mk 900 true, Frame.mk 900 true,
      Frame.mk 900 true, Frame.mk 10 false, Frame.mk 10 false,
      Frame.mk 10 false, Frame.mk 10 false, Frame.mk 10 false,
      Frame.mk 10 false, Frame.mk 20 false, Frame.mk 30 false].length = 12 :=
  c2_scenario 500
    (Frame.mk 0 false) (Frame.mk 0 false) (Frame.mk 0 false) (Frame.mk 0 false)
    (Frame.mk 0 false) (Frame.mk 900 true) (Frame.mk 900 true) (Frame.mk 900 true)
    (Frame.mk 900 true) (Frame.mk 10 false) (Frame.mk 10 false) (Frame.mk 10 false)
    (Frame.mk 10 false) (Frame.mk 10 false) (Frame.mk 10 false) (Frame.mk 20 false)
    (Frame.mk 30 false) []
    (by decide) (by decide) (by decide) (by decide) (by decide)
    (by decide) (by decide) (by decide) (by decide)
    (by decide) (by decide) (by decide) (by decide) (by decide) (by decide)

/-- Claim C3, evaluation at the failing input: the AudioProcessor capture
callback has no dependence on the tts_playing mute flag at all (apStep takes
no mute input because audio_callback never reads the event), so a 50-frame
sequence of speech-classified frames captured during TTS playback is buffered
in full, and if silence follows, a clip is emitted and handed to the
transcription callback.  The claim (while muted: stay in WAITING, buffer
nothing, emit nothing) holds of listen_and_transcribe in app copy.py, whose
loop skips reading while the flag is set, but the modular application
violates it. -/
theorem c3_audio_processor_ignores_mute :
    (apRun apConfig initAPState
        (List.replicate 50 (Frame.mk 500 true))).1.frames.length = 50 ∧
    (apRun apConfig initAPState
        (List.replicate 50 (Frame.mk 500 true) ++
          [Frame.mk 500 false])).2.any
      (fun r => match r with | APResult.emitted _ => true | _ => false) = true := by
  decide

/-- Counterexample to claim C6 as stated: in the AudioProcessor variant, at
end-of-utterance no additional frames are read from the frame source; instead
the buffer is extended with copies of its own last min(extraFrames, length)
entries.  On the concrete capture sequence A B C D (speech), five silence
frames, then E F, the emitted clip is A B C D C D: it repeats the already
buffered frames C and D and is not the buffer followed by the two next frames
available from the source. -/
theorem c6_counterexample :
    (apRun apConfig initAPState
        [Frame.mk 200 true, Frame.mk 201 true, Frame.mk 202 true,
          Frame.mk 203 true, Frame.mk 300 false, Frame.mk 300 false,
          Frame.mk 300 false, Frame.mk 300 false, Frame.mk 300 false,
          Frame.mk 204 true, Frame.mk 205 true]).2 =
      [APResult.nothing, APResult.nothing, APResult.nothing, APResult.nothing,
        APResult.nothing, APResult.nothing, APResult.nothing, APResult.nothing,
        APResult.emitted
          [Frame.mk 200 true, Frame.mk 201 true, Frame.mk 202 true,
            Frame.mk 203 true, Frame.mk 202 true, Frame.mk 203 true],
        APResult.nothing, APResult.nothing] ∧
    [Frame.mk 200 true, Frame.mk 201 true, Frame.mk 202 true,
      Frame.mk 203 true, Frame.mk 202 true, Frame.mk 203 true] ≠
    [Frame.mk 200 true, Frame.mk 201 true, Frame.mk 202 true,
      Frame.mk 203 true, Frame.mk 204 true, Frame.mk 205 true] := by
  decide

/-- Claim C6, amended to the listen_and_transcribe segmenter of app copy.py
and sip_llm_bot.py: whenever a frame makes the end-of-utterance condition
fire, the loop returns the accumulated buffer followed by the next frames of
the stream, taken up to extraFrames many, with no condition whatever on their
classification (padding frames that are themselves speech are appended all
the same), and the clip gains at most extraFrames padding frames.  (The
AudioProcessor variant instead duplicates the tail of its own buffer, see the
counterexample.) -/
theorem c6_extra_frames_unconditional (cfg : SegConfig) (s : SegState)
    (f : Frame) (rest : List LoopInput)
    (hend : (segStep cfg s f).2 = true) :
    runLoop cfg s (LoopInput.frame f :: rest) =
      some ((segStep cfg s f).1.buffer ++
        (framesOf rest).take cfg.extraFrames) ∧
    ((framesOf rest).take cfg.extraFrames).length ≤ cfg.extraFrames := by
  constructor
  · simp [runLoop, hend]
  · exact (framesOf rest).length_take_le cfg.extraFrames

/-- Witness for C6: a buffered utterance one frame past both thresholds under
the app copy.py configuration, whose padding frames are speech-classified. -/
theorem c6_extra_frames_unconditional_witness :
    runLoop appCopyConfig
      { triggered := true, numSilent := 40, numBuffered := 30,
        buffer := List.replicate 30 (Frame.mk 900 true) }
      (LoopInput.frame (Frame.mk 0 false) ::
        [LoopInput.frame (Frame.mk 901 true), LoopInput.frame (Frame.mk 902 true)]) =
      some ((segStep appCopyConfig
          { triggered := true, numSilent := 40, numBuffered := 30,
            buffer := List.replicate 30 (Frame.mk 900 true) }
          (Frame.mk 0 false)).1.buffer ++
        (framesOf [LoopInput.frame (Frame.mk 901 true),
          LoopInput.frame (Frame.mk 902 true)]).take appCopyConfig.extraFrames) ∧
    ((framesOf [LoopInput.frame (Frame.mk 901 true),
      LoopInput.frame (Frame.mk 902 true)]).take appCopyConfig.extraFrames).length ≤
      appCopyConfig.extraFrames :=
  c6_extra_frames_unconditional appCopyConfig
    { triggered := true, numSilent := 40, numBuffered := 30,
      buffer := List.replicate 30 (Frame.mk 900 true) }
    (Frame.mk 0 false)
    [LoopInput.frame (Frame.mk 901 true), LoopInput.frame (Frame.mk 902 true)]
    (by decide)

/-- Claim C10: in the AudioProcessor variant, when a silence-classified frame
above the amplitude gate makes the end-of-utterance condition fire but the
buffered utterance is shorter than 100 ms (buffered frame count times frame
duration), the utterance is silently discarded: the buffer and the silence
counter are cleared and no clip is handed to the transcription callback. -/
theorem c10_short_utterance_discarded (cfg : APConfig) (s : APState) (f : Frame)
    (hamp : cfg.amplitudeThreshold ≤ f.maxAmp)
    (hvad : f.vadSpeech = false)
    (hmin : cfg.minUtteranceFrames ≤ s.frames.length)
    (hsil : cfg.silenceThresholdFrames ≤ s.silentFrames + 1)
    (hshort : s.frames.length * cfg.frameDurationMs < 100) :
    apStep cfg s f = ({ frames := [], silentFrames := 0 }, APResult.discarded) := by
  have hlt : ¬ f.maxAmp < cfg.amplitudeThreshold := not_lt.mpr hamp
  have hdur : ¬ 100 ≤ s.frames.length * cfg.frameDurationMs := not_le.mpr hshort
  simp [apStep, hlt, hvad, hdur, hmin, hsil]

/-- Witness for C10: three buffered speech frames (90 ms at 30 ms per frame,
meeting MIN_UTTERANCE_FRAMES = 3) and four counted silent frames, hit by a
fifth silence frame that completes the SILENCE_THRESHOLD_FRAMES = 5 run. -/
theorem c10_short_utterance_discarded_witness :
    apConfig.amplitudeThreshold ≤ 500 ∧
    apStep apConfig
        { frames := List.replicate 3 (Frame.mk 500 true), silentFrames := 4 }
        (Frame.mk 500 false) =
      ({ frames := [], silentFrames := 0 }, APResult.discarded) :=
  ⟨by decide,
    c10_short_utterance_discarded apConfig
      { frames := List.replicate 3 (Frame.mk 500 true), silentFrames := 4 }
      (Frame.mk 500 false)
      (by decide) rfl (by decide) (by decide) (by decide)⟩

/-- Claim C4: both playback steps clear the mute flag on every exit path.
Whatever combination of synthesis and playback failures the invocation runs
into, tts_playing is false when speak_text (app copy.py) returns, and the
audio_processor tts_playing flag is false when _speak_response
(conversation_manager.py) returns: the clear sits in a finally block, so it
runs whether the try body completed or raised, and the bare except ensures
no exception escapes either function. -/
theorem c4_mute_cleared_on_all_paths :
    ∀ (env : SpeakEnv) (now : Nat) (s : BotState) (t : CMState),
      (speak_text env now s).ttsPlaying = false ∧
      (speak_response env t).ttsPlaying = false := by
  intro env now s t
  obtain ⟨g, p⟩ := env
  cases g <;> cases p <;> exact ⟨rfl, rfl⟩

/-- Claim C9: the playback step refreshes the idle clock on every exit path
(last_activity_timestamp is now when speak_text returns, whether synthesis
and playback succeeded or raised, because the assignment sits in the finally
block after playback), while generating the reply does not touch it:
query_ollama returns the globals it was given unchanged, so in particular
last_activity_timestamp is not updated when the reply text is produced. -/
theorem c9_idle_clock_refreshed_after_playback :
    ∀ (env : SpeakEnv) (now : Nat) (s : BotState) (res : HttpOutcome),
      (speak_text env now s).lastActivity = some now ∧
      (query_ollama res s).2.1 = s := by
  intro env now s res
  obtain ⟨g, p⟩ := env
  cases g <;> cases p <;> exact ⟨rfl, rfl⟩

/-- Counterexample to claim C7 as stated: a successful engine response whose
message content strips to the empty string makes both query_ollama
implementations return the empty string, not a non-empty reply. -/
theorem c7_counterexample :
    (query_ollama
        (HttpOutcome.response 200 (some (OllamaJson.withContent " ")))
        initBotState).1 = "" ∧
    query_ollama_client
      (HttpOutcome.response 200 (some (OllamaJson.withContent ""))) = "" := by
  constructor
  · decide
  · decide

/-- Claim C7, amended: on every engine failure (request exception, error
status of 400 or above, non-JSON body, missing content field) both
query_ollama implementations return a fixed non-empty apology string, and
being total functions they propagate no exception; on a well-formed success
they return the engine content stripped, which is empty exactly when the
engine supplied an all-whitespace reply (see the counterexample). -/
theorem c7_fallback_on_engine_failure (res : HttpOutcome) (s : BotState)
    (h : engineFailure res = true) :
    (query_ollama res s).1 = "Sorry, I encountered an error." ∧
    (query_ollama res s).1 ≠ "" ∧
    query_ollama_client res ≠ "" := by
  have happ : (query_ollama res s).1 = "Sorry, I encountered an error." := by
    match res with
    | HttpOutcome.requestRaised => rfl
    | HttpOutcome.response status body =>
      by_cases hs : 400 ≤ status
      · simp [query_ollama, hs]
      · match body with
        | none => simp [query_ollama, hs]
        | some OllamaJson.malformed => simp [query_ollama, hs]
        | some (OllamaJson.withContent c) =>
          exact absurd h (by simp [engineFailure, hs])
  have hclient : query_ollama_client res ≠ "" := by
    match res with
    | HttpOutcome.requestRaised => decide
    | HttpOutcome.response status body =>
      by_cases hs : 400 ≤ status
      · simp [query_ollama_client, hs]
      · match body with
        | none => simp [query_ollama_client, hs]
        | some OllamaJson.malformed => simp [query_ollama_client, hs]
        | some (OllamaJson.withContent c) =>
          exact absurd h (by simp [engineFailure, hs])
  refine ⟨happ, ?_, hclient⟩
  rw [happ]
  decide

/-- Witness for C7: a request that raised. -/
theorem c7_fallback_on_engine_failure_witness :
    (query_ollama HttpOutcome.requestRaised initBotState).1 =
      "Sorry, I encountered an error." ∧
    (query_ollama HttpOutcome.requestRaised initBotState).1 ≠ "" ∧
    query_ollama_client HttpOutcome.requestRaised ≠ "" :=
  c7_fallback_on_engine_failure HttpOutcome.requestRaised initBotState rfl

/-- Claim C8: with a confirmation pending, a confirmation time on record and
a current conversation set, once the clock stands strictly more than
CONFIRM_TIMEOUT_SECONDS past the issue time, the capture loop returns the
confirm-timeout flag, and the main loop iteration on that flag clears
conversation_active and confirmation_pending and emits exactly one
summarization call for the session; afterwards no time instant can make the
confirm-timeout check fire again, so the summarization cannot repeat. -/
theorem c8_confirm_timeout_ends_and_summarizes_once
    (cfg : TimeoutConfig) (env : TurnEnv) (now : Nat) (s : BotState)
    (t cid : Nat)
    (hpend : s.confirmationPending = true)
    (htime : s.confirmationTime = some t)
    (hcid : s.currentConversationId = some cid)
    (hidle : cfg.confirmTimeoutSeconds < now - t) :
    timeoutCheck cfg now s = some ListenResult.confirmTimeoutFlag ∧
    (mainLoopStep env now s ListenResult.confirmTimeoutFlag).1.conversationActive
      = false ∧
    (mainLoopStep env now s ListenResult.confirmTimeoutFlag).1.confirmationPending
      = false ∧
    (mainLoopStep env now s ListenResult.confirmTimeoutFlag).2 =
      [Effect.summarize cid] ∧
    (∀ now2 : Nat,
      timeoutCheck cfg now2
        (mainLoopStep env now s ListenResult.confirmTimeoutFlag).1 = none) := by
  refine ⟨?_, ?_, ?_, ?_, ?_⟩
  · simp [timeoutCheck, confirmCheck, hpend, htime, hidle]
  · simp [mainLoopStep, hpend]
  · simp [mainLoopStep, hpend]
  · simp [mainLoopStep, hpend, hcid]
  · intro now2
    simp [mainLoopStep, hpend, timeoutCheck, confirmCheck, hangupCheck]

/-- Witness for C8: confirmation issued at second 100, checked at second 116
under CONFIRM_TIMEOUT_SECONDS = 15, conversation 7. -/
theorem c8_confirm_timeout_witness :
    timeoutCheck appCopyTimeouts 116
        { ttsPlaying := false, lastActivity := some 100,
          conversationActive := true, confirmationPending := true,
          confirmationTime := some 100, currentConversationId := some 7 } =
      some ListenResult.confirmTimeoutFlag ∧
    (mainLoopStep
        { speakEnv := { ttsGenRaises := false, playbackRaises := false },
          ollama := HttpOutcome.requestRaised, newConversationId := 8 } 116
        { ttsPlaying := false, lastActivity := some 100,
          conversationActive := true, confirmationPending := true,
          confirmationTime := some 100, currentConversationId := some 7 }
        ListenResult.confirmTimeoutFlag).1.conversationActive = false ∧
    (mainLoopStep
        { speakEnv := { ttsGenRaises := false, playbackRaises := false },
          ollama := HttpOutcome.requestRaised, newConversationId := 8 } 116
        { ttsPlaying := false, lastActivity := some 100,
          conversationActive := true, confirmationPending := true,
          confirmationTime := some 100, currentConversationId := some 7 }
        ListenResult.confirmTimeoutFlag).1.confirmationPending = false ∧
    (mainLoopStep
        { speakEnv := { ttsGenRaises := false, playbackRaises := false },
          ollama := HttpOutcome.requestRaised, newConversationId := 8 } 116
        { ttsPlaying := false, lastActivity := some 100,
          conversationActive := true, confirmationPending := true,
          confirmationTime := some 100, currentConversationId := some 7 }
        ListenResult.confirmTimeoutFlag).2 = [Effect.summarize 7] ∧
    (∀ now2 : Nat,
      timeoutCheck appCopyTimeouts now2
        (mainLoopStep
            { speakEnv := { ttsGenRaises := false, playbackRaises := false },
              ollama := HttpOutcome.requestRaised, newConversationId := 8 } 116
            { ttsPlaying := false, lastActivity := some 100,
              conversationActive := true, confirmationPending := true,
              confirmationTime := some 100, currentConversationId := some 7 }
            ListenResult.confirmTimeoutFlag).1 = none) :=
  c8_confirm_timeout_ends_and_summarizes_once appCopyTimeouts
    { speakEnv := { ttsGenRaises := false, playbackRaises := false },
      ollama := HttpOutcome.requestRaised, newConversationId := 8 } 116
    { ttsPlaying := false, lastActivity := some 100,
      conversationActive := true, confirmationPending := true,
      confirmationTime := some 100, currentConversationId := some 7 }
    100 7 rfl rfl rfl (by decide)
